import Mathlib

/-!
Shallow embedding of `src/net/socket.cpp` (SOCKS5 proxy client of the
bitcoin repository): `InterruptibleRecv`, `Socks5`, `ConnectThroughProxy`
and `MillisToTimeval`, together with proofs of the claims about them.

The socket itself is modelled by an environment: each `recv` performed by
`InterruptibleRecv` consumes one `IterEvent` describing what the system
call returned, whether the interrupt flag was observed set at the
post-iteration check, and the wall-clock reading at the end of the
iteration.  Each `send`/`InterruptibleRecv` performed by `Socks5` consumes
one entry of a `Socks5Env` script.
-/

namespace Socket

/-- Status codes that can be returned by `InterruptibleRecv`
(enum `IntrRecvError` in socket.cpp). -/
inductive IntrRecvError where
  | OK
  | Timeout
  | Disconnected
  | NetworkError
  | Interrupted
deriving DecidableEq, Repr

/-- Outcome of one `recv(2)` system call, as seen by `InterruptibleRecv`:
`bytes n` is a return value of `n ≥ 0` (where `0` means the peer closed the
connection), `errWouldBlock sel selFail` is a `-1` return with errno in
{EINPROGRESS, EWOULDBLOCK, EINVAL} (`sel` records whether the socket is
selectable, `selFail` whether the subsequent `select`/`poll` call returned
`SOCKET_ERROR`), and `errOther` is a `-1` return with any other errno. -/
inductive RecvResult where
  | bytes (n : Nat)
  | errWouldBlock (selectable : Bool) (selectFail : Bool)
  | errOther
deriving DecidableEq, Repr

/-- Environment record for one iteration of the `InterruptibleRecv` loop:
the outcome of its `recv`, the value of the `interruptSocks5Recv` flag at
the check at the bottom of the iteration, and the value `GetTimeMillis()`
returns at the end of the iteration. -/
structure IterEvent where
  recv : RecvResult
  intr : Bool
  nextTime : Int
deriving DecidableEq, Repr

/-- The `while (len > 0 && curTime < endTime)` loop of `InterruptibleRecv`
(socket.cpp lines 338-374).  `ev` supplies the environment of iteration
`i`; `fuel` bounds the number of iterations (the run is `none` when the
fuel runs out before the loop exits, which never happens on traces whose
clock advances).  The result carries, besides the `IntrRecvError` status,
the number of `recv` calls performed and the list of readiness waits
executed, each as a pair `(endTime - curTime, timeout_ms)` of the
remaining time and the wait bound actually passed to `select`/`poll`
(the code computes `timeout_ms = min(endTime - curTime, maxWait)` with
`maxWait = 1000`). -/
def irLoop (ev : Nat → IterEvent) (endTime : Int) :
    Nat → Nat → Int → Nat → List (Int × Int) →
    Option (IntrRecvError × Nat × List (Int × Int))
  | 0, len, curTime, i, waits =>
    if 0 < len ∧ curTime < endTime then none
    else some ((if len = 0 then IntrRecvError.OK else IntrRecvError.Timeout), i, waits)
  | fuel' + 1, len, curTime, i, waits =>
    if 0 < len ∧ curTime < endTime then
      match (ev i).recv with
        | RecvResult.bytes n =>
          if 0 < n then
            -- ret > 0: len -= ret; data += ret; then the interrupt check
            if (ev i).intr then some (IntrRecvError.Interrupted, i + 1, waits)
            else irLoop ev endTime fuel' (len - n) (ev i).nextTime (i + 1) waits
          else
            -- ret == 0: unexpected disconnection
            some (IntrRecvError.Disconnected, i + 1, waits)
        | RecvResult.errWouldBlock selectable selectFail =>
          if selectable then
            if selectFail then
              some (IntrRecvError.NetworkError, i + 1,
                waits ++ [(endTime - curTime, min (endTime - curTime) 1000)])
            else
              if (ev i).intr then
                some (IntrRecvError.Interrupted, i + 1,
                  waits ++ [(endTime - curTime, min (endTime - curTime) 1000)])
              else
                irLoop ev endTime fuel' len (ev i).nextTime (i + 1)
                  (waits ++ [(endTime - curTime, min (endTime - curTime) 1000)])
          else some (IntrRecvError.NetworkError, i + 1, waits)
        | RecvResult.errOther => some (IntrRecvError.NetworkError, i + 1, waits)
    else
      some ((if len = 0 then IntrRecvError.OK else IntrRecvError.Timeout), i, waits)

/-- The function `InterruptibleRecv(data, len, timeout, hSocket)` (socket.cpp lines
331-376): `curTime = GetTimeMillis()` is `startTime`, `endTime = curTime +
timeout`, then the loop. -/
def interruptibleRecv (fuel : Nat) (len : Nat) (timeout : Int) (startTime : Int)
    (ev : Nat → IterEvent) : Option (IntrRecvError × Nat × List (Int × Int)) :=
  irLoop ev (startTime + timeout) fuel len startTime 0 []

/-- The function `MillisToTimeval` (socket.cpp lines 532-538): `tv_sec = nTimeout / 1000`
and `tv_usec = (nTimeout % 1000) * 1000`, with C truncated division and
remainder on `int64_t`. -/
def millisToTimeval (nTimeout : Int) : Int × Int :=
  (Int.tdiv nTimeout 1000, Int.tmod nTimeout 1000 * 1000)

/-- Credentials for proxy authentication (struct `ProxyCredentials` in
socket.cpp); the strings are modelled as lists of byte values. -/
structure ProxyCredentials where
  username : List Nat
  password : List Nat
deriving DecidableEq, Repr

/-- Distinguishable outcomes of `Socks5` (socket.cpp lines 382-499).  The
C++ function returns `bool`; each `false` return site is identified here
by the error message it logs, so that distinct failure modes stay
distinguishable. -/
inductive Socks5Outcome where
  | success
  /-- line 387, `error("Hostname too long")` -/
  | hostnameTooLong
  /-- line 402, `error("Error sending to proxy")` for the method-selection message -/
  | initSendError
  /-- line 407, quiet `false` after `InterruptibleRecv` of the 2-byte method reply failed -/
  | initRecvFailed
  /-- line 410, `error("Proxy failed to initialize")`, VER byte not 0x05 -/
  | proxyFailedInit
  /-- line 417, `error("Proxy username or password too long")` -/
  | authTooLong
  /-- line 424, `error("Error sending authentication to proxy")` -/
  | authSendError
  /-- line 429, `error("Error reading proxy authentication response")` -/
  | authRecvError
  /-- line 432, `error("Proxy authentication unsuccessful")` -/
  | authFailed
  /-- line 437, `error("Proxy requested wrong authentication method %02x")` -/
  | wrongAuthMethod (m : Nat)
  /-- line 450, `error("Error sending to proxy")` for the CONNECT request -/
  | connectSendError
  /-- line 458, quiet `false`: timeout reading the 4-byte CONNECT reply prefix -/
  | connectRecvTimeout
  /-- line 460, `error("Error while reading proxy response")` -/
  | connectRecvError
  /-- line 464, `error("Proxy failed to accept request")`, reply VER not 0x05 -/
  | proxyFailedToAccept
  /-- lines 466-470, quiet `false`: REP byte `rep ≠ 0`, logged via `Socks5ErrorString` -/
  | proxyRequestFailed (rep : Nat)
  /-- lines 472 and 489, `error("Error: malformed proxy response")`: RSV byte not 0 or unknown ATYP -/
  | malformedReply
  /-- lines 483, 492, 495, `error("Error reading from proxy")` while reading the bound address/port -/
  | bindReadError
deriving DecidableEq, Repr

/-- Environment for one `Socks5` run: `sends` gives, for each successive
`send` call, whether it transmitted the whole message (`ret ==
(ssize_t)size`); `recvs` gives, for each successive `InterruptibleRecv`
call, its status and the bytes placed in the buffer. -/
structure Socks5Env where
  sends : List Bool
  recvs : List (IntrRecvError × List Nat)
deriving DecidableEq, Repr

/-- Pop the next `send` outcome from the environment (an exhausted script
counts as a failed send). -/
def popSend : Socks5Env → Bool × Socks5Env
  | ⟨[], rs⟩ => (false, ⟨[], rs⟩)
  | ⟨b :: bs, rs⟩ => (b, ⟨bs, rs⟩)

/-- Pop the next `InterruptibleRecv` outcome from the environment (an
exhausted script counts as a `NetworkError` receive). -/
def popRecv : Socks5Env → (IntrRecvError × List Nat) × Socks5Env
  | ⟨ss, []⟩ => ((IntrRecvError.NetworkError, []), ⟨ss, []⟩)
  | ⟨ss, r :: rs⟩ => (r, ⟨ss, rs⟩)

/-- The username/password subnegotiation step of `Socks5` (socket.cpp
lines 412-438), entered after the 2-byte method reply `[ver, method]`
passed the `ver = 5` check.  On the RFC 1929 path it sends
`[0x01, ulen] ++ username ++ [plen] ++ password` and reads a 2-byte
status reply.  Returns the updated sent-message log and environment, or
the failure outcome together with the messages sent so far. -/
def socks5AuthStep (auth : Option ProxyCredentials) (method : Nat)
    (sent : List (List Nat)) (env : Socks5Env) :
    Except (Socks5Outcome × List (List Nat)) (List (List Nat) × Socks5Env) :=
  match auth with
  | some a =>
    if method = 2 then
      if 255 < a.username.length ∨ 255 < a.password.length then
        Except.error (Socks5Outcome.authTooLong, sent)
      else
        let vAuth : List Nat :=
          1 :: a.username.length :: (a.username ++ a.password.length :: a.password)
        let pa := popSend env
        let sent2 := sent ++ [vAuth]
        if pa.1 = false then Except.error (Socks5Outcome.authSendError, sent2)
        else
          let qa := popRecv pa.2
          if qa.1.1 ≠ IntrRecvError.OK then
            Except.error (Socks5Outcome.authRecvError, sent2)
          else if qa.1.2.getD 0 0 ≠ 1 ∨ qa.1.2.getD 1 0 ≠ 0 then
            Except.error (Socks5Outcome.authFailed, sent2)
          else Except.ok (sent2, qa.2)
    else if method = 0 then Except.ok (sent, env)
    else Except.error (Socks5Outcome.wrongAuthMethod method, sent)
  | none =>
    if method = 0 then Except.ok (sent, env)
    else Except.error (Socks5Outcome.wrongAuthMethod method, sent)

/-- The per-ATYP read of the bound address in the CONNECT reply (socket.cpp
lines 474-493): 4 bytes for IPV4, 16 for IPV6, and for DOMAINNAME a 1-byte
length followed by that many bytes; any other ATYP is a malformed reply.
A failed read here (inside the switch or at the common check after it)
yields `bindReadError` in every case. -/
def socks5ReadBind (atyp : Nat) (env : Socks5Env) : Except Socks5Outcome Socks5Env :=
  if atyp = 1 then
    let q := popRecv env
    if q.1.1 ≠ IntrRecvError.OK then Except.error Socks5Outcome.bindReadError
    else Except.ok q.2
  else if atyp = 4 then
    let q := popRecv env
    if q.1.1 ≠ IntrRecvError.OK then Except.error Socks5Outcome.bindReadError
    else Except.ok q.2
  else if atyp = 3 then
    let q := popRecv env
    if q.1.1 ≠ IntrRecvError.OK then Except.error Socks5Outcome.bindReadError
    else
      let q2 := popRecv q.2
      if q2.1.1 ≠ IntrRecvError.OK then Except.error Socks5Outcome.bindReadError
      else Except.ok q2.2
  else Except.error Socks5Outcome.malformedReply

/-- The CONNECT request and reply handling of `Socks5` (socket.cpp lines
439-498): send `[5, 1, 0, 3, |dest|] ++ dest ++ [port >> 8 & 0xFF, port &
0xFF]`, read the 4-byte reply prefix, validate VER, REP, RSV in that
order, then the bound address per ATYP and the 2-byte bound port. -/
def socks5ConnectStep (dest : List Nat) (port : Nat)
    (sent : List (List Nat)) (env : Socks5Env) : Socks5Outcome × List (List Nat) :=
  let vSocks5 : List Nat :=
    5 :: 1 :: 0 :: 3 :: dest.length :: (dest ++ [port / 256 % 256, port % 256])
  let ps := popSend env
  let sent2 := sent ++ [vSocks5]
  if ps.1 = false then (Socks5Outcome.connectSendError, sent2)
  else
    let q2 := popRecv ps.2
    if q2.1.1 ≠ IntrRecvError.OK then
      if q2.1.1 = IntrRecvError.Timeout then (Socks5Outcome.connectRecvTimeout, sent2)
      else (Socks5Outcome.connectRecvError, sent2)
    else
      let b := q2.1.2
      if b.getD 0 0 ≠ 5 then (Socks5Outcome.proxyFailedToAccept, sent2)
      else if b.getD 1 0 ≠ 0 then (Socks5Outcome.proxyRequestFailed (b.getD 1 0), sent2)
      else if b.getD 2 0 ≠ 0 then (Socks5Outcome.malformedReply, sent2)
      else
        match socks5ReadBind (b.getD 3 0) q2.2 with
        | Except.error out => (out, sent2)
        | Except.ok env3 =>
          let q4 := popRecv env3
          if q4.1.1 ≠ IntrRecvError.OK then (Socks5Outcome.bindReadError, sent2)
          else (Socks5Outcome.success, sent2)

/-- The function `Socks5(strDest, port, auth, hSocket)` (socket.cpp lines 382-499).
`dest` is the destination hostname as a byte list.  Returns the outcome
together with the log of all messages passed to `send`, in order. -/
def socks5 (dest : List Nat) (port : Nat) (auth : Option ProxyCredentials)
    (env0 : Socks5Env) : Socks5Outcome × List (List Nat) :=
  if 255 < dest.length then (Socks5Outcome.hostnameTooLong, [])
  else
    let vInit : List Nat :=
      match auth with
      | some _ => [5, 2, 0, 2]
      | none => [5, 1, 0]
    let p1 := popSend env0
    let sent1 := [vInit]
    if p1.1 = false then (Socks5Outcome.initSendError, sent1)
    else
      let q1 := popRecv p1.2
      if q1.1.1 ≠ IntrRecvError.OK then (Socks5Outcome.initRecvFailed, sent1)
      else if q1.1.2.getD 0 0 ≠ 5 then (Socks5Outcome.proxyFailedInit, sent1)
      else
        match socks5AuthStep auth (q1.1.2.getD 1 0) sent1 q1.2 with
        | Except.error out => out
        | Except.ok (sent2, env2) => socks5ConnectStep dest port sent2 env2

/-- Big-endian decimal digit list of `n`, the digits of `strprintf("%i",
n)` for a non-negative `n` (so `decimal 0 = [0]`). -/
def decimal (n : Nat) : List Nat :=
  if _h : n < 10 then [n]
  else decimal (n / 10) ++ [n % 10]
decreasing_by exact Nat.div_lt_self (by omega) (by omega)

/-- The byte string `strprintf("%i", n)` for non-negative `n`: ASCII codes
of the decimal digits. -/
def decimalBytes (n : Nat) : List Nat :=
  (decimal n).map (fun d => d + 48)

/-- Observable result of one `ConnectThroughProxy` call: the returned
`bool`, whether `*outProxyConnectionFailed = true` was executed, the value
of the static `counter` after the call, the credentials passed to `Socks5`
(if any), and the messages `Socks5` sent to the proxy. -/
structure CTPResult where
  success : Bool
  proxyConnectionFailedSet : Bool
  counterAfter : Nat
  credsUsed : Option ProxyCredentials
  sent : List (List Nat)
deriving DecidableEq, Repr

/-- Signed value of a 32-bit two's-complement bit pattern `c < 2^32`:
the `int` whose representation is `c`. -/
def toSigned (c : Nat) : Int :=
  if c < 2147483648 then (c : Int) else (c : Int) - 4294967296

/-- The byte string `strprintf("%i", i)` for a signed `int` value: a
leading ASCII minus sign (45) for negatives, then the decimal digits of
the absolute value. -/
def decimalBytesInt (i : Int) : List Nat :=
  if i < 0 then 45 :: decimalBytes i.natAbs else decimalBytes i.natAbs

/-- The function `ConnectThroughProxy` (socket.cpp lines 503-525).  `proxyConnectOk` is
the outcome of the initial `ConnectSocketDirectly` to the proxy endpoint;
`counter` is the 32-bit two's-complement bit pattern (a `Nat < 2^32`) held
by the function-local `static std::atomic_int counter` before the call.
With `randomize_credentials` the code sets `username = password =
strprintf("%i", counter++)` (post-increment): the printed value is the
signed `int` the pattern represents, and the atomic increment wraps
modulo `2^32` (two's-complement wraparound is defined behavior for
`std::atomic_int` arithmetic, so `INT_MAX + 1` is `INT_MIN`). -/
def connectThroughProxy (proxyConnectOk : Bool) (dest : List Nat) (port : Nat)
    (randomizeCredentials : Bool) (counter : Nat) (env : Socks5Env) : CTPResult :=
  if proxyConnectOk = false then
    { success := false, proxyConnectionFailedSet := true, counterAfter := counter,
      credsUsed := none, sent := [] }
  else if randomizeCredentials then
    let creds : ProxyCredentials :=
      ⟨decimalBytesInt (toSigned counter), decimalBytesInt (toSigned counter)⟩
    let r := socks5 dest port (some creds) env
    { success := decide (r.1 = Socks5Outcome.success), proxyConnectionFailedSet := false,
      counterAfter := (counter + 1) % 4294967296, credsUsed := some creds, sent := r.2 }
  else
    let r := socks5 dest port none env
    { success := decide (r.1 = Socks5Outcome.success), proxyConnectionFailedSet := false,
      counterAfter := counter, credsUsed := none, sent := r.2 }

/-- Numeric value of a big-endian digit list (left inverse of `decimal`). -/
def digitsVal (ds : List Nat) : Nat :=
  ds.foldl (fun a d => a * 10 + d) 0

/-- Socket trace whose every iteration delivers one byte while the
interrupt flag is set. -/
def evAllIntr : Nat → IterEvent :=
  fun _ => ⟨RecvResult.bytes 1, true, 5⟩

/-- Socket trace whose first iteration delivers two bytes while the
interrupt flag is set. -/
def evFullIntr : Nat → IterEvent :=
  fun _ => ⟨RecvResult.bytes 2, true, 5⟩

/-- Socket trace that blocks once (readiness wait succeeds) and then
delivers one byte, with the interrupt flag never set. -/
def evWait : Nat → IterEvent :=
  fun i => if i = 0 then ⟨RecvResult.errWouldBlock true false, false, 100⟩
           else ⟨RecvResult.bytes 1, false, 200⟩

end Socket

namespace Socket

theorem digitsVal_append_digit (xs : List Nat) (d : Nat) :
    digitsVal (xs ++ [d]) = digitsVal xs * 10 + d := by
  simp [digitsVal, List.foldl_append]

theorem digitsVal_decimal (n : Nat) : digitsVal (decimal n) = n := by
  induction n using Nat.strong_induction_on with
  | _ n ih =>
    rw [decimal]
    split
    · simp [digitsVal]
    · rw [digitsVal_append_digit, ih (n / 10) (Nat.div_lt_self (by omega) (by omega))]
      omega

theorem decimal_injective (m n : Nat) (h : decimal m = decimal n) : m = n := by
  have hm := digitsVal_decimal m
  have hn := digitsVal_decimal n
  rw [h] at hm
  omega

theorem decimalBytes_injective (m n : Nat) (h : decimalBytes m = decimalBytes n) :
    m = n := by
  apply decimal_injective
  unfold decimalBytes at h
  refine List.map_injective_iff.mpr ?_ h
  intro a b hab
  simp only [add_left_inj] at hab
  exact hab

/-- Lemma: `socks5ConnectStep` always appends exactly the CONNECT request to the
sent-message log, whatever its outcome. -/
theorem socks5ConnectStep_sent (dest : List Nat) (port : Nat)
    (sent : List (List Nat)) (env : Socks5Env) :
    (socks5ConnectStep dest port sent env).2 =
      sent ++ [5 :: 1 :: 0 :: 3 :: dest.length :: (dest ++ [port / 256 % 256, port % 256])] := by
  simp only [socks5ConnectStep]
  repeat' split
  all_goals rfl

/-- Lemma: `socks5ReadBind` fails only with `bindReadError` or `malformedReply`. -/
theorem socks5ReadBind_error (atyp : Nat) (env : Socks5Env) (o : Socks5Outcome)
    (h : socks5ReadBind atyp env = Except.error o) :
    o = Socks5Outcome.bindReadError ∨ o = Socks5Outcome.malformedReply := by
  simp only [socks5ReadBind] at h
  repeat' split at h
  all_goals (try exact Except.noConfusion h)
  all_goals injection h with h2
  all_goals (subst h2; simp)

/-- Lemma: `socks5AuthStep` never fails with `hostnameTooLong`. -/
theorem socks5AuthStep_ne_hostnameTooLong (auth : Option ProxyCredentials)
    (method : Nat) (sent : List (List Nat)) (env : Socks5Env)
    (o : Socks5Outcome) (s : List (List Nat))
    (h : socks5AuthStep auth method sent env = Except.error (o, s)) :
    o ≠ Socks5Outcome.hostnameTooLong := by
  simp only [socks5AuthStep] at h
  repeat' split at h
  all_goals (try exact Except.noConfusion h)
  all_goals injection h with h2
  all_goals (injection h2 with h3 h4; subst h3; simp)

/-- Lemma: `socks5ConnectStep` never yields `hostnameTooLong`. -/
theorem socks5ConnectStep_ne_hostnameTooLong (dest : List Nat) (port : Nat)
    (sent : List (List Nat)) (env : Socks5Env) :
    (socks5ConnectStep dest port sent env).1 ≠ Socks5Outcome.hostnameTooLong := by
  simp only [socks5ConnectStep]
  repeat' split
  all_goals try simp
  case _ henv h2 =>
    intro hc
    rcases socks5ReadBind_error _ _ _ h2 with h | h <;> simp_all

/-- C5: the hostname-length preflight of `Socks5`: a destination longer
than 255 bytes fails with `hostnameTooLong` before any message is sent
(empty sent log), and a destination of at most 255 bytes never produces
`hostnameTooLong`, whatever the proxy does. -/
theorem socks5_hostname_length (dest : List Nat) (port : Nat)
    (auth : Option ProxyCredentials) (env : Socks5Env) :
    (255 < dest.length →
      socks5 dest port auth env = (Socks5Outcome.hostnameTooLong, [])) ∧
    (dest.length ≤ 255 →
      (socks5 dest port auth env).1 ≠ Socks5Outcome.hostnameTooLong) := by
  constructor
  · intro hlong
    rw [socks5.eq_def, if_pos hlong]
  · intro hshort
    rw [socks5.eq_def, if_neg (by omega)]
    simp only []
    repeat' split
    all_goals try simp
    case _ heq =>
      intro hc
      have := socks5AuthStep_ne_hostnameTooLong _ _ _ _ _ _ heq
      simp_all
    case _ =>
      exact socks5ConnectStep_ne_hostnameTooLong _ _ _ _

theorem socks5_hostname_length_witness :
    socks5 (List.replicate 256 97) 80 none ⟨[], []⟩ =
      (Socks5Outcome.hostnameTooLong, []) ∧
    (socks5 (List.replicate 255 97) 80 none ⟨[], []⟩).1 ≠
      Socks5Outcome.hostnameTooLong :=
  ⟨(socks5_hostname_length (List.replicate 256 97) 80 none ⟨[], []⟩).1
     (by rw [List.length_replicate]; omega),
   (socks5_hostname_length (List.replicate 255 97) 80 none ⟨[], []⟩).2
     (by rw [List.length_replicate])⟩

/-- C10: in the CONNECT reply parse the VER, REP, RSV, ATYP prefix bytes
are validated in that order: a reply `[5, rep, rsv, atyp]` with `rep ≠ 0`
and `rsv ≠ 0` yields the quiet per-REP failure `proxyRequestFailed rep`,
not `malformedReply` — the non-zero RSV is never reached. -/
theorem socks5_rep_checked_before_rsv (rep rsv atyp : Nat)
    (hrep : rep ≠ 0) (_hrsv : rsv ≠ 0)
    (_hb1 : rep < 256) (_hb2 : rsv < 256) (_hb3 : atyp < 256) :
    socks5 [97] 80 none
      ⟨[true, true],
       [(IntrRecvError.OK, [5, 0]), (IntrRecvError.OK, [5, rep, rsv, atyp])]⟩ =
      (Socks5Outcome.proxyRequestFailed rep,
       [[5, 1, 0], [5, 1, 0, 3, 1, 97, 0, 80]]) := by
  rw [socks5]
  simp [socks5AuthStep, socks5ConnectStep, popSend, popRecv, hrep]

theorem socks5_rep_checked_before_rsv_witness :
    socks5 [97] 80 none
      ⟨[true, true],
       [(IntrRecvError.OK, [5, 0]), (IntrRecvError.OK, [5, 1, 1, 1])]⟩ =
      (Socks5Outcome.proxyRequestFailed 1,
       [[5, 1, 0], [5, 1, 0, 3, 1, 97, 0, 80]]) :=
  socks5_rep_checked_before_rsv 1 1 1 (by decide) (by decide) (by decide)
    (by decide) (by decide)

/-- C3 counterexample: a session with credentials whose username and
password are both empty, in which the proxy selects METHOD 0x02, is not
rejected at the session layer: the RFC 1929 authentication message is
sent as `[0x01, 0x00, 0x00]` (both length fields zero) and the dialog
proceeds to completion. -/
theorem socks5_empty_credentials_sent :
    socks5 [97] 80 (some ⟨[], []⟩)
      ⟨[true, true, true],
       [(IntrRecvError.OK, [5, 2]), (IntrRecvError.OK, [1, 0]),
        (IntrRecvError.OK, [5, 0, 0, 1]), (IntrRecvError.OK, [9, 9, 9, 9]),
        (IntrRecvError.OK, [0, 80])]⟩ =
      (Socks5Outcome.success, [[5, 2, 0, 2], [1, 0, 0], [5, 1, 0, 3, 1, 97, 0, 80]]) ∧
    [1, 0, 0] ∈ [[5, 2, 0, 2], [1, 0, 0], [5, 1, 0, 3, 1, 97, 0, 80]] := by
  constructor
  · rfl
  · simp

/-- In the METHOD 0x02 branch with credentials within the 255-byte bound
and a successful send, `socks5AuthStep` always logs exactly the RFC 1929
message `[1, ulen] ++ username ++ [plen] ++ password`, whether the
subnegotiation then fails or succeeds. -/
theorem socks5AuthStep_sent_auth (a : ProxyCredentials) (sent : List (List Nat))
    (ss : List Bool) (rs : List (IntrRecvError × List Nat))
    (hu : a.username.length ≤ 255) (hp : a.password.length ≤ 255) :
    (∀ o s, socks5AuthStep (some a) 2 sent ⟨true :: ss, rs⟩ = Except.error (o, s) →
      s = sent ++ [1 :: a.username.length :: (a.username ++ a.password.length :: a.password)]) ∧
    (∀ s env2, socks5AuthStep (some a) 2 sent ⟨true :: ss, rs⟩ = Except.ok (s, env2) →
      s = sent ++ [1 :: a.username.length :: (a.username ++ a.password.length :: a.password)]) := by
  constructor
  · intro o s h
    simp only [socks5AuthStep, popSend] at h
    rw [if_pos trivial, if_neg (by omega), if_neg (by simp)] at h
    repeat' split at h
    all_goals (try exact Except.noConfusion h)
    all_goals (injection h with h2; injection h2 with h3 h4; exact h4.symm)
  · intro s env2 h
    simp only [socks5AuthStep, popSend] at h
    rw [if_pos trivial, if_neg (by omega), if_neg (by simp)] at h
    repeat' split at h
    all_goals (try exact Except.noConfusion h)
    all_goals (injection h with h2; injection h2 with h3 h4; exact h3.symm)

/-- C3 (amended): before sending the RFC 1929 authentication message the
session layer rejects exactly over-long credentials (username or password
longer than 255 bytes), with `authTooLong` and nothing but the
method-selection message sent; empty username and password pass the check
and the authentication message `[1, 0, 0]` is sent. -/
theorem socks5_credentials_policy (user pass : List Nat) (srest : List Bool)
    (rrest : List (IntrRecvError × List Nat)) :
    (255 < user.length ∨ 255 < pass.length →
      socks5 [97] 80 (some ⟨user, pass⟩)
        ⟨true :: true :: srest, (IntrRecvError.OK, [5, 2]) :: rrest⟩ =
        (Socks5Outcome.authTooLong, [[5, 2, 0, 2]])) ∧
    [1, 0, 0] ∈ (socks5 [97] 80 (some ⟨[], []⟩)
        ⟨true :: true :: srest, (IntrRecvError.OK, [5, 2]) :: rrest⟩).2 := by
  constructor
  · intro hlong
    rw [socks5.eq_def]
    simp [socks5AuthStep, popSend, popRecv, hlong]
  · rw [socks5.eq_def]
    simp only [popSend, popRecv]
    norm_num
    rcases hstep : socks5AuthStep (some ⟨[], []⟩) 2 [[5, 2, 0, 2]]
        ⟨true :: srest, rrest⟩ with out | ok2
    · obtain ⟨o, s⟩ := out
      have hs := (socks5AuthStep_sent_auth ⟨[], []⟩ [[5, 2, 0, 2]] srest rrest
        (by simp) (by simp)).1 o s hstep
      simp [hs]
    · obtain ⟨s, env2⟩ := ok2
      have hs := (socks5AuthStep_sent_auth ⟨[], []⟩ [[5, 2, 0, 2]] srest rrest
        (by simp) (by simp)).2 s env2 hstep
      simp only []
      rw [socks5ConnectStep_sent, hs]
      simp

theorem socks5_credentials_policy_witness :
    socks5 [97] 80 (some ⟨List.replicate 256 97, []⟩)
      ⟨true :: true :: [], (IntrRecvError.OK, [5, 2]) :: []⟩ =
      (Socks5Outcome.authTooLong, [[5, 2, 0, 2]]) ∧
    [1, 0, 0] ∈ (socks5 [97] 80 (some ⟨[], []⟩)
      ⟨true :: true :: [], (IntrRecvError.OK, [5, 2]) :: []⟩).2 :=
  ⟨(socks5_credentials_policy (List.replicate 256 97) [] [] []).1
     (Or.inl (by rw [List.length_replicate]; omega)),
   (socks5_credentials_policy (List.replicate 256 97) [] [] []).2⟩

/-- C6: `InterruptibleRecv` with requested length 0 returns `OK` at once:
no `recv` is performed (count 0) and no readiness wait is executed (empty
wait list), for every timeout, start time, fuel and socket trace. -/
theorem interruptibleRecv_len_zero (fuel : Nat) (timeout startTime : Int)
    (ev : Nat → IterEvent) :
    interruptibleRecv fuel 0 timeout startTime ev = some (IntrRecvError.OK, 0, []) := by
  cases fuel <;> (rw [interruptibleRecv, irLoop]; simp)

/-- C8: for every non-negative millisecond count `x`, `MillisToTimeval`
returns `tv_sec = x / 1000` and `tv_usec = (x % 1000) * 1000`, and
`tv_sec * 1000 + tv_usec / 1000 = x` (exact round-trip). -/
theorem millisToTimeval_spec (x : Int) (hx : 0 ≤ x) :
    (millisToTimeval x).1 = x / 1000 ∧
    (millisToTimeval x).2 = x % 1000 * 1000 ∧
    (millisToTimeval x).1 * 1000 + (millisToTimeval x).2 / 1000 = x := by
  unfold millisToTimeval
  have h1 : Int.tdiv x 1000 = x / 1000 := Int.tdiv_eq_ediv hx (by norm_num)
  have h2 : Int.tmod x 1000 = x % 1000 := Int.tmod_eq_emod hx (by norm_num)
  refine ⟨h1, by rw [h2], ?_⟩
  have h3 : x % 1000 * 1000 / 1000 = x % 1000 :=
    Int.mul_ediv_cancel _ (by norm_num)
  simp only [h1, h2, h3]
  omega

theorem millisToTimeval_spec_witness :
    (millisToTimeval 1234).1 = 1234 / 1000 ∧
    (millisToTimeval 1234).2 = 1234 % 1000 * 1000 ∧
    (millisToTimeval 1234).1 * 1000 + (millisToTimeval 1234).2 / 1000 = 1234 :=
  millisToTimeval_spec 1234 (by decide)

/-- C2 counterexample: with the interrupt flag set before entry
(`evAllIntr` keeps it set throughout), a call with `len = 1` and a 10 ms
deadline does return `Interrupted` — but only after performing one `recv`
on the socket (recv count 1, not 0), because the loop tries the read
optimistically before sampling the flag. -/
theorem interruptibleRecv_entry_interrupt_read_performed :
    interruptibleRecv 1 1 10 0 evAllIntr = some (IntrRecvError.Interrupted, 1, []) ∧
    (1 : Nat) ≠ 0 := by
  constructor
  · rfl
  · decide

/-- C2 (amended): if the interrupt flag is already set at entry (and thus
observed set at the first post-read check), a call with `len > 0` and a
deadline still ahead performs exactly one `recv` and then returns, never
with `OK` or `Timeout` (the result is `Interrupted`, or `Disconnected` /
`NetworkError` when that first read itself fails). -/
theorem interruptibleRecv_entry_interrupt (fuel len : Nat) (timeout startTime : Int)
    (ev : Nat → IterEvent) (hlen : 0 < len) (ht : startTime < startTime + timeout)
    (hintr : (ev 0).intr = true) :
    ∃ r w, interruptibleRecv (fuel + 1) len timeout startTime ev = some (r, 1, w) ∧
      r ≠ IntrRecvError.OK ∧ r ≠ IntrRecvError.Timeout := by
  rw [interruptibleRecv, irLoop, if_pos ⟨hlen, ht⟩]
  rcases hrec : (ev 0).recv with n | ⟨sel, sf⟩ | _
  · by_cases hn : 0 < n
    · exact ⟨IntrRecvError.Interrupted, [], by simp [hn, hintr], by simp, by simp⟩
    · exact ⟨IntrRecvError.Disconnected, [], by simp [hn], by simp, by simp⟩
  · cases sel
    · exact ⟨IntrRecvError.NetworkError, [], by simp, by simp, by simp⟩
    · cases sf
      · exact ⟨IntrRecvError.Interrupted,
          [(startTime + timeout - startTime, min (startTime + timeout - startTime) 1000)],
          by simp [hintr], by simp, by simp⟩
      · exact ⟨IntrRecvError.NetworkError,
          [(startTime + timeout - startTime, min (startTime + timeout - startTime) 1000)],
          by simp, by simp, by simp⟩
  · exact ⟨IntrRecvError.NetworkError, [], by simp, by simp, by simp⟩

theorem interruptibleRecv_entry_interrupt_witness :
    ∃ r w, interruptibleRecv 1 1 10 0 evAllIntr = some (r, 1, w) ∧
      r ≠ IntrRecvError.OK ∧ r ≠ IntrRecvError.Timeout :=
  interruptibleRecv_entry_interrupt 0 1 10 0 evAllIntr (by decide) (by decide) rfl

/-- C9: the post-read interrupt check takes precedence over completion:
when the first `recv` delivers at least the whole requested length
(`len ≤ n`) but the interrupt flag is observed set at the check after the
read, the call returns `Interrupted`, not `OK`. -/
theorem interruptibleRecv_full_read_interrupted (fuel len n : Nat)
    (timeout startTime : Int) (ev : Nat → IterEvent)
    (hlen : 0 < len) (ht : startTime < startTime + timeout)
    (hrec : (ev 0).recv = RecvResult.bytes n) (hn : len ≤ n)
    (hintr : (ev 0).intr = true) :
    interruptibleRecv (fuel + 1) len timeout startTime ev =
      some (IntrRecvError.Interrupted, 1, []) := by
  rw [interruptibleRecv, irLoop, if_pos ⟨hlen, ht⟩]
  simp [hrec, hintr, show 0 < n by omega]

/-- Loop invariant for the wait bounds and interrupt sampling of
`irLoop`: every executed readiness wait used `min(endTime - curTime,
1000)` with positive remaining time, and a run that ends in `OK` or
`Timeout` observed the interrupt flag unset at every per-iteration
sample. -/
theorem irLoop_wait_aux (ev : Nat → IterEvent) (endTime : Int) (fuel : Nat) :
    ∀ (len : Nat) (curTime : Int) (i : Nat) (acc : List (Int × Int))
      (r : IntrRecvError) (cnt : Nat) (waits : List (Int × Int)),
      (∀ p ∈ acc, 0 < p.1 ∧ p.2 ≤ 1000 ∧ p.2 ≤ p.1) →
      irLoop ev endTime fuel len curTime i acc = some (r, cnt, waits) →
      (∀ p ∈ waits, 0 < p.1 ∧ p.2 ≤ 1000 ∧ p.2 ≤ p.1) ∧
      ((r = IntrRecvError.OK ∨ r = IntrRecvError.Timeout) →
        ∀ j, i ≤ j → j < cnt → (ev j).intr = false) := by
  induction fuel with
  | zero =>
    intro len curTime i acc r cnt waits hacc h
    by_cases hcond : 0 < len ∧ curTime < endTime
    · rw [irLoop, if_pos hcond] at h
      exact absurd h (by simp)
    · rw [irLoop, if_neg hcond] at h
      simp only [Option.some.injEq, Prod.mk.injEq] at h
      obtain ⟨hr, hcnt, hw⟩ := h
      subst hcnt hw
      exact ⟨hacc, fun _ j hij hj => absurd hj (by omega)⟩
  | succ fuel ih =>
    intro len curTime i acc r cnt waits hacc h
    by_cases hcond : 0 < len ∧ curTime < endTime
    case neg =>
      rw [irLoop, if_neg hcond] at h
      simp only [Option.some.injEq, Prod.mk.injEq] at h
      obtain ⟨hr, hcnt, hw⟩ := h
      subst hcnt hw
      exact ⟨hacc, fun _ j hij hj => absurd hj (by omega)⟩
    case pos =>
      rw [irLoop, if_pos hcond] at h
      rcases hrec : (ev i).recv with n | ⟨sel, sf⟩ | _ <;>
        rw [hrec] at h <;> simp only [] at h
      · -- recv returned n bytes (n = 0 is a disconnection)
        by_cases hn : 0 < n
        · by_cases hi : (ev i).intr = true
          · rw [if_pos hn, if_pos hi] at h
            simp only [Option.some.injEq, Prod.mk.injEq] at h
            obtain ⟨hr, hcnt, hw⟩ := h
            subst hr hcnt hw
            exact ⟨hacc, fun hor => by simp at hor⟩
          · rw [if_pos hn, if_neg hi] at h
            simp only [Bool.not_eq_true] at hi
            have hrest := ih (len - n) (ev i).nextTime (i + 1) acc r cnt waits hacc h
            refine ⟨hrest.1, fun hor j hij hj => ?_⟩
            rcases Nat.lt_or_ge j (i + 1) with hji | hji
            · have hje : j = i := by omega
              rw [hje]; exact hi
            · exact hrest.2 hor j hji hj
        · rw [if_neg hn] at h
          simp only [Option.some.injEq, Prod.mk.injEq] at h
          obtain ⟨hr, hcnt, hw⟩ := h
          subst hr hcnt hw
          exact ⟨hacc, fun hor => by simp at hor⟩
      · -- recv would block
        cases sel
        · rw [if_neg (by simp)] at h
          simp only [Option.some.injEq, Prod.mk.injEq] at h
          obtain ⟨hr, hcnt, hw⟩ := h
          subst hr hcnt hw
          exact ⟨hacc, fun hor => by simp at hor⟩
        · rw [if_pos rfl] at h
          have hacc2 : ∀ p ∈ acc ++ [(endTime - curTime, min (endTime - curTime) 1000)],
              0 < p.1 ∧ p.2 ≤ 1000 ∧ p.2 ≤ p.1 := by
            intro p hp
            rcases List.mem_append.mp hp with hp1 | hp2
            · exact hacc p hp1
            · simp only [List.mem_singleton] at hp2
              subst hp2
              exact ⟨by omega, min_le_right _ _, min_le_left _ _⟩
          cases sf
          · by_cases hi : (ev i).intr = true
            · rw [if_neg (by simp), if_pos hi] at h
              simp only [Option.some.injEq, Prod.mk.injEq] at h
              obtain ⟨hr, hcnt, hw⟩ := h
              subst hr hcnt hw
              exact ⟨hacc2, fun hor => by simp at hor⟩
            · rw [if_neg (by simp), if_neg hi] at h
              simp only [Bool.not_eq_true] at hi
              have hrest := ih len (ev i).nextTime (i + 1)
                (acc ++ [(endTime - curTime, min (endTime - curTime) 1000)])
                r cnt waits hacc2 h
              refine ⟨hrest.1, fun hor j hij hj => ?_⟩
              rcases Nat.lt_or_ge j (i + 1) with hji | hji
              · have hje : j = i := by omega
                rw [hje]; exact hi
              · exact hrest.2 hor j hji hj
          · rw [if_pos rfl] at h
            simp only [Option.some.injEq, Prod.mk.injEq] at h
            obtain ⟨hr, hcnt, hw⟩ := h
            subst hr hcnt hw
            exact ⟨hacc2, fun hor => by simp at hor⟩
      · -- recv failed with a non-retryable errno
        simp only [Option.some.injEq, Prod.mk.injEq] at h
        obtain ⟨hr, hcnt, hw⟩ := h
        subst hr hcnt hw
        exact ⟨hacc, fun hor => by simp at hor⟩

/-- C7: in every completed run of `InterruptibleRecv`, each readiness wait
executed in a would-block iteration was bounded by both 1000 ms (the
interrupt granularity `maxWait`) and the remaining time before the
deadline (each recorded pair is `(endTime - curTime, timeout_ms)` with
`timeout_ms = min(endTime - curTime, 1000)`), and the interrupt flag was
sampled after every wait or read: a run that ends in `OK` or `Timeout`
observed the flag unset at every sample. -/
theorem interruptibleRecv_wait_bound (fuel len : Nat) (timeout startTime : Int)
    (ev : Nat → IterEvent) (r : IntrRecvError) (cnt : Nat)
    (waits : List (Int × Int))
    (h : interruptibleRecv fuel len timeout startTime ev = some (r, cnt, waits)) :
    (∀ p ∈ waits, 0 < p.1 ∧ p.2 ≤ 1000 ∧ p.2 ≤ p.1) ∧
    ((r = IntrRecvError.OK ∨ r = IntrRecvError.Timeout) →
      ∀ j, j < cnt → (ev j).intr = false) := by
  have haux := irLoop_wait_aux ev (startTime + timeout) fuel len startTime 0 []
    r cnt waits (by simp) h
  exact ⟨haux.1, fun hor j hj => haux.2 hor j (Nat.zero_le j) hj⟩

theorem interruptibleRecv_wait_bound_witness :
    (∀ p ∈ [((5000 : Int), (1000 : Int))], 0 < p.1 ∧ p.2 ≤ 1000 ∧ p.2 ≤ p.1) ∧
    ((IntrRecvError.OK = IntrRecvError.OK ∨ IntrRecvError.OK = IntrRecvError.Timeout) →
      ∀ j, j < 2 → (evWait j).intr = false) :=
  interruptibleRecv_wait_bound 2 1 5000 0 evWait IntrRecvError.OK 2
    [(5000, 1000)] (by rfl)

theorem interruptibleRecv_full_read_interrupted_witness :
    interruptibleRecv 1 2 10 0 evFullIntr = some (IntrRecvError.Interrupted, 1, []) :=
  interruptibleRecv_full_read_interrupted 0 2 2 10 0 evFullIntr (by decide) (by decide)
    rfl (by decide) rfl

theorem decimal_ne_nil (n : Nat) : decimal n ≠ [] := by
  rw [decimal]
  split <;> simp

/-- Lemma: `toSigned` is injective on 32-bit patterns. -/
theorem toSigned_injective (a b : Nat) (ha : a < 4294967296) (hb : b < 4294967296)
    (h : toSigned a = toSigned b) : a = b := by
  unfold toSigned at h
  split at h <;> split at h <;> omega

/-- Lemma: distinct signed values print as distinct byte strings. -/
theorem decimalBytesInt_injective (i j : Int) (h : decimalBytesInt i = decimalBytesInt j) :
    i = j := by
  unfold decimalBytesInt at h
  by_cases hi : i < 0 <;> by_cases hj : j < 0
  · rw [if_pos hi, if_pos hj] at h
    simp only [List.cons.injEq] at h
    have := decimalBytes_injective _ _ h.2
    omega
  · rw [if_pos hi, if_neg hj] at h
    exfalso
    rcases hd : decimal j.natAbs with _ | ⟨d, ds⟩
    · exact decimal_ne_nil _ hd
    · unfold decimalBytes at h
      rw [hd] at h
      simp only [List.map_cons, List.cons.injEq] at h
      omega
  · rw [if_neg hi, if_pos hj] at h
    exfalso
    rcases hd : decimal i.natAbs with _ | ⟨d, ds⟩
    · exact decimal_ne_nil _ hd
    · unfold decimalBytes at h
      rw [hd] at h
      simp only [List.map_cons, List.cons.injEq] at h
      omega
  · rw [if_neg hi, if_neg hj] at h
    have := decimalBytes_injective _ _ h
    omega

/-- C1 counterexample: with the static counter at the bit pattern of
`INT_MAX = 2147483647`, the randomized call uses that value and the
wrapping atomic increment leaves the pattern of `INT_MIN`: the counter
value used by the next call is `-2147483648`, which is NOT strictly
greater than `2147483647` — strict monotonicity fails at the wrap. -/
theorem connectThroughProxy_counter_wrap :
    (connectThroughProxy true [97] 80 true 2147483647 ⟨[], []⟩).counterAfter =
      2147483648 ∧
    toSigned 2147483647 = 2147483647 ∧
    toSigned 2147483648 = -2147483648 ∧
    ¬ toSigned 2147483647 < toSigned 2147483648 := by
  refine ⟨?_, by decide, by decide, by decide⟩
  simp [connectThroughProxy]

/-- C1 (amended): across two successive randomized `ConnectThroughProxy`
calls that reach the SOCKS5 negotiation, the credential pairs (the signed
decimal string of the counter, used as both username and password) are
always distinct, and the counter value used by the later call is strictly
greater unless the earlier call used `INT_MAX`, where the wrapping atomic
increment takes it to `INT_MIN`. -/
theorem connectThroughProxy_randomized_distinct (counter : Nat)
    (hc : counter < 4294967296) (d1 d2 : List Nat)
    (p1 p2 : Nat) (e1 e2 : Socks5Env) :
    (connectThroughProxy true d1 p1 true counter e1).credsUsed =
        some ⟨decimalBytesInt (toSigned counter), decimalBytesInt (toSigned counter)⟩ ∧
    (connectThroughProxy true d1 p1 true counter e1).counterAfter =
        (counter + 1) % 4294967296 ∧
    (connectThroughProxy true d2 p2 true
        (connectThroughProxy true d1 p1 true counter e1).counterAfter e2).credsUsed =
        some ⟨decimalBytesInt (toSigned ((counter + 1) % 4294967296)),
              decimalBytesInt (toSigned ((counter + 1) % 4294967296))⟩ ∧
    (connectThroughProxy true d1 p1 true counter e1).credsUsed ≠
      (connectThroughProxy true d2 p2 true
        (connectThroughProxy true d1 p1 true counter e1).counterAfter e2).credsUsed ∧
    (counter ≠ 2147483647 →
      toSigned counter < toSigned ((counter + 1) % 4294967296)) ∧
    (counter = 2147483647 →
      toSigned ((counter + 1) % 4294967296) = -2147483648) := by
  have h1 : (connectThroughProxy true d1 p1 true counter e1).credsUsed =
      some ⟨decimalBytesInt (toSigned counter), decimalBytesInt (toSigned counter)⟩ := by
    simp [connectThroughProxy]
  have h2 : (connectThroughProxy true d1 p1 true counter e1).counterAfter =
      (counter + 1) % 4294967296 := by
    simp [connectThroughProxy]
  have h3 : (connectThroughProxy true d2 p2 true
      (connectThroughProxy true d1 p1 true counter e1).counterAfter e2).credsUsed =
      some ⟨decimalBytesInt (toSigned ((counter + 1) % 4294967296)),
            decimalBytesInt (toSigned ((counter + 1) % 4294967296))⟩ := by
    rw [h2]
    simp [connectThroughProxy]
  have hne : (counter + 1) % 4294967296 ≠ counter := by omega
  refine ⟨h1, h2, h3, ?_, ?_, ?_⟩
  · rw [h1, h3]
    intro hcontra
    have hstr : decimalBytesInt (toSigned counter) =
        decimalBytesInt (toSigned ((counter + 1) % 4294967296)) :=
      congrArg ProxyCredentials.username (Option.some.inj hcontra)
    have hsv := decimalBytesInt_injective _ _ hstr
    exact hne (toSigned_injective _ _ hc (by omega) hsv).symm
  · intro hmax
    unfold toSigned
    split <;> split <;> omega
  · intro hmax
    subst hmax
    decide

theorem connectThroughProxy_randomized_distinct_witness :
    (connectThroughProxy true [97] 80 true 5 ⟨[], []⟩).credsUsed =
        some ⟨decimalBytesInt (toSigned 5), decimalBytesInt (toSigned 5)⟩ ∧
    toSigned 5 < toSigned ((5 + 1) % 4294967296) :=
  ⟨(connectThroughProxy_randomized_distinct 5 (by decide) [97] [98] 80 81
      ⟨[], []⟩ ⟨[], []⟩).1,
   (connectThroughProxy_randomized_distinct 5 (by decide) [97] [98] 80 81
      ⟨[], []⟩ ⟨[], []⟩).2.2.2.2.1 (by decide)⟩

/-- C4: `ConnectThroughProxy` writes `true` to `*outProxyConnectionFailed`
exactly when the initial direct connect to the proxy fails; in that case
it returns failure at once, with no SOCKS5 negotiation (nothing sent).
When the proxy connect succeeds the flag is never written and the call
succeeds exactly when the SOCKS5 dialog (run with the credentials the
call selected) succeeds. -/
theorem connectThroughProxy_failure_flag (connectOk : Bool) (dest : List Nat)
    (port : Nat) (rand : Bool) (counter : Nat) (env : Socks5Env) :
    ((connectThroughProxy connectOk dest port rand counter env).proxyConnectionFailedSet =
      !connectOk) ∧
    (connectOk = false →
      (connectThroughProxy connectOk dest port rand counter env).success = false ∧
      (connectThroughProxy connectOk dest port rand counter env).sent = []) ∧
    (connectOk = true →
      ((connectThroughProxy connectOk dest port rand counter env).success = true ↔
        (socks5 dest port
          (connectThroughProxy connectOk dest port rand counter env).credsUsed env).1 =
          Socks5Outcome.success)) := by
  cases connectOk
  · refine ⟨?_, ?_, ?_⟩
    · simp [connectThroughProxy]
    · intro _
      simp [connectThroughProxy]
    · intro hc
      cases hc
  · refine ⟨?_, ?_, ?_⟩
    · cases rand <;> simp [connectThroughProxy]
    · intro hc
      cases hc
    · intro _
      cases rand <;> simp [connectThroughProxy]

theorem connectThroughProxy_failure_flag_witness :
    ((connectThroughProxy false [97] 80 false 0 ⟨[], []⟩).proxyConnectionFailedSet =
      !false) ∧
    (connectThroughProxy false [97] 80 false 0 ⟨[], []⟩).success = false ∧
    (connectThroughProxy false [97] 80 false 0 ⟨[], []⟩).sent = [] := by
  have h := connectThroughProxy_failure_flag false [97] 80 false 0 ⟨[], []⟩
  exact ⟨h.1, h.2.1 rfl⟩

end Socket
